import Mathlib

/-!
Shallow embedding of the RPI Game Architecture example engine slice:
the Lua scripting bridge (src/engine/entity/ga_lua_component.cpp),
the mesh builder (src/engine/graphics/ga_mesh.cpp) and the model
component (src/engine/graphics/ga_model_component.cpp), together with
theorems settling the specification claims about them.

Machine floats are modelled as integers (only the algebraic structure of
the operations matters for the claims); raw C pointers are modelled as
natural-number addresses read through explicit heap functions; Lua
interpreter state is modelled as an explicit value stack plus a global
table.  Out-of-bounds C array reads are modelled by Option-valued access,
so a computation that would be undefined in C is `none` here.
-/

namespace GA

/-- A Lua value as seen across the C API boundary.  `vnative` is a
registered C function (Lua treats those as functions too). -/
inductive LuaVal where
  | vnil : LuaVal
  | vbool (b : Bool) : LuaVal
  | vnum (n : Int) : LuaVal
  | vlightuserdata (addr : Nat) : LuaVal
  | vfun (id : Nat) : LuaVal
  | vnative (nm : String) : LuaVal
deriving DecidableEq, Repr

/-- lua_isfunction: true on script functions and registered C functions. -/
def lua_isfunction : LuaVal → Bool
  | .vfun _ => true
  | .vnative _ => true
  | _ => false

/-- Value at positive Lua stack index i (1 = bottom, the first argument
of a C call); nil outside the stack, matching the C API's treatment of
an acceptable-but-empty index. -/
def stack_get (stack : List LuaVal) (i : Nat) : LuaVal :=
  stack.getD (i - 1) .vnil

/-- lua_touserdata: the address carried by light userdata, else NULL (0). -/
def lua_touserdata (stack : List LuaVal) (i : Nat) : Nat :=
  match stack_get stack i with
  | .vlightuserdata a => a
  | _ => 0

/-- lua_tonumber: the number at index i, else 0. -/
def lua_tonumber (stack : List LuaVal) (i : Nat) : Int :=
  match stack_get stack i with
  | .vnum n => n
  | _ => 0

/-- lua_pushboolean. -/
def lua_pushboolean (stack : List LuaVal) (b : Bool) : List LuaVal :=
  stack ++ [.vbool b]

/-- lua_pushlightuserdata. -/
def lua_pushlightuserdata (stack : List LuaVal) (a : Nat) : List LuaVal :=
  stack ++ [.vlightuserdata a]

/-- What a lua_CFunction hands back to the interpreter: the final stack,
the declared number of results, and the diagnostics printed to stderr. -/
structure CallOutcome where
  stack : List LuaVal
  nret : Nat
  diags : List String
deriving DecidableEq, Repr

/-- When a C function returns n, Lua takes the top n values of its final
stack as the call's results; taking more values than the stack holds is
undefined behaviour (`none`). -/
def lua_call_results (stack : List LuaVal) (nret : Nat) : Option (List LuaVal) :=
  if nret ≤ stack.length then some (stack.drop (stack.length - nret)) else none

/-- The per-frame input/timing record (framework/ga_frame_params.h is an
external collaborator; only the button mask and delta time cross the
bridge). -/
structure ga_frame_params where
  button_mask : Nat
  delta_time : Int
deriving DecidableEq, Repr

/-- Modelled from the spec: `k_button_j` is the button-mask bit tested by
`frame_params_get_input_left` — the spec's "left" bit.  The constant
lives in ga_frame_params.h, which is not among the sources; only its
being a fixed single bit distinct from the "right" bit matters. -/
def k_button_j : Nat := 1

/-- Modelled from the spec: `k_button_l` is the button-mask bit tested by
`frame_params_get_input_right` — the spec's "right" bit (see
`k_button_j`). -/
def k_button_l : Nat := 2

/-- A 3-vector of scalars (math/ga_vec3f.h, external collaborator). -/
structure ga_vec3f where
  x : Int
  y : Int
  z : Int
deriving DecidableEq, Repr

/-- An entity as the bridge sees it: src/ only holds callers of
ga_entity, so just the state `translate` touches is modelled. -/
structure ga_entity where
  position : ga_vec3f
deriving DecidableEq, Repr

/-- Modelled from the spec: `ga_entity::translate` (entity/ga_entity.h
is not among the sources; the spec describes an Entity exposing
translate(vec3) which "applies a translation to the entity's
transform"). -/
def ga_entity.translate (e : ga_entity) (v : ga_vec3f) : ga_entity :=
  { e with position := ⟨e.position.x + v.x, e.position.y + v.y, e.position.z + v.z⟩ }

/-- Pointer-store update: writing one entity through its address. -/
def heap_set (h : Nat → ga_entity) (a : Nat) (e : ga_entity) : Nat → ga_entity :=
  fun x => if x = a then e else h x

/-- A script file as the constructor observes it: whether luaL_loadfile
succeeds (and its error text if not), whether executing the top-level
chunk raises (the lua_pcall status), and the global table left behind by
that execution. -/
structure LuaScript where
  load_ok : Bool
  load_error_msg : String
  run_error : Bool
  globals : String → LuaVal

/-- A live interpreter state owned by a loaded component. -/
structure LuaState where
  globals : String → LuaVal

/-- The scripting component: owning entity handle, optional interpreter
state (`none` = disabled), and the diagnostics the constructor printed. -/
structure ga_lua_component where
  ent : Nat
  lua : Option LuaState
  diags : List String

/-- lua_register of the four bridge functions: each becomes a global
holding a C function. -/
def register_natives (g : String → LuaVal) : String → LuaVal :=
  fun n =>
    if n = "frame_params_get_input_left" ∨ n = "frame_params_get_input_right" ∨
       n = "component_get_entity" ∨ n = "entity_translate"
    then .vnative n else g n

/-- ga_lua_component::ga_lua_component: load the file (diagnose and
disable on failure), execute the chunk discarding the lua_pcall status,
require a global callable `update` (diagnose and disable otherwise),
then register the native callables. -/
def ga_lua_component.construct (ent : Nat) (script : LuaScript) (path : String) :
    ga_lua_component :=
  if script.load_ok = false then
    { ent := ent, lua := none,
      diags := ["Failed to load script " ++ path ++ ": " ++ script.load_error_msg] }
  else
    let g := script.globals
    if lua_isfunction (g "update") = false then
      { ent := ent, lua := none,
        diags := ["Script " ++ path ++ " does not contain 'update' function."] }
    else
      { ent := ent, lua := some ⟨register_natives g⟩, diags := [] }

/-- One invocation of a Lua function observed at the lua_pcall boundary. -/
structure InvokeRecord where
  fn : LuaVal
  args : List LuaVal
deriving DecidableEq, Repr

/-- What one per-frame update of the component does: the Lua calls it
issues, the diagnostics it prints, and whether assert(0) fired. -/
structure UpdateOutcome where
  calls : List InvokeRecord
  diags : List String
  asserted : Bool
deriving DecidableEq, Repr

/-- ga_lua_component::update: a no-op when disabled; otherwise a fresh
lua_getglobal of "update", then one lua_pcall with the component and
frame-params pointers as the two arguments.  `call_error` is the
interpreter-side outcome of that call (the script's behaviour is
external): `some msg` means the pcall returned an error status, upon
which the code prints the message and asserts. -/
def ga_lua_component.update (c : ga_lua_component) (self_addr params_addr : Nat)
    (call_error : Option String) : UpdateOutcome :=
  match c.lua with
  | none => { calls := [], diags := [], asserted := false }
  | some st =>
    let r : InvokeRecord :=
      { fn := st.globals "update",
        args := [.vlightuserdata self_addr, .vlightuserdata params_addr] }
    match call_error with
    | some msg => { calls := [r], diags := ["Error: " ++ msg], asserted := true }
    | none => { calls := [r], diags := [], asserted := false }

/-- ga_lua_component::lua_frame_params_get_input_left: with exactly one
argument, push whether the frame's button mask has the k_button_j bit;
otherwise print a diagnostic (and push nothing).  Returns 1 either way.
`fp_heap` dereferences the frame-params pointer. -/
def ga_lua_component.lua_frame_params_get_input_left
    (fp_heap : Nat → ga_frame_params) (stack : List LuaVal) : CallOutcome :=
  let arg_count := stack.length
  if arg_count = 1 then
    let params := fp_heap (lua_touserdata stack 1)
    { stack := lua_pushboolean stack ((params.button_mask &&& k_button_j) != 0),
      nret := 1, diags := [] }
  else
    { stack := stack, nret := 1,
      diags := ["Function frame_params_get_input_left expected 1 argument but got "
                ++ toString arg_count ++ "."] }

/-- ga_lua_component::lua_frame_params_get_input_right: as for the left
query but testing the k_button_l bit. -/
def ga_lua_component.lua_frame_params_get_input_right
    (fp_heap : Nat → ga_frame_params) (stack : List LuaVal) : CallOutcome :=
  let arg_count := stack.length
  if arg_count = 1 then
    let params := fp_heap (lua_touserdata stack 1)
    { stack := lua_pushboolean stack ((params.button_mask &&& k_button_l) != 0),
      nret := 1, diags := [] }
  else
    { stack := stack, nret := 1,
      diags := ["Function frame_params_get_input_right expected 1 argument but got "
                ++ toString arg_count ++ "."] }

/-- ga_lua_component::lua_component_get_entity: with exactly one
argument, push the owning entity's handle as light userdata; otherwise
print a diagnostic (and push nothing).  Returns 1 either way.
`comp_heap` dereferences the component pointer. -/
def ga_lua_component.lua_component_get_entity
    (comp_heap : Nat → ga_lua_component) (stack : List LuaVal) : CallOutcome :=
  let arg_count := stack.length
  if arg_count = 1 then
    let component := comp_heap (lua_touserdata stack 1)
    { stack := lua_pushlightuserdata stack component.ent, nret := 1, diags := [] }
  else
    { stack := stack, nret := 1,
      diags := ["Function component_get_entity expected 1 argument but got "
                ++ toString arg_count ++ "."] }

/-- ga_lua_component::lua_entity_translate: with exactly four arguments,
read the entity pointer and three numbers and translate the entity;
otherwise print a diagnostic and touch nothing.  Returns 0 either way.
The entity heap is threaded explicitly to expose the mutation. -/
def ga_lua_component.lua_entity_translate
    (ent_heap : Nat → ga_entity) (stack : List LuaVal) :
    (Nat → ga_entity) × CallOutcome :=
  let arg_count := stack.length
  if arg_count = 4 then
    let addr := lua_touserdata stack 1
    let vec : ga_vec3f :=
      ⟨lua_tonumber stack 2, lua_tonumber stack 3, lua_tonumber stack 4⟩
    (heap_set ent_heap addr ((ent_heap addr).translate vec),
     { stack := stack, nret := 0, diags := [] })
  else
    (ent_heap,
     { stack := stack, nret := 0,
       diags := ["Function entity_translate expected 4 arguments but got "
                 ++ toString arg_count ++ "."] })

/-- Vertex attribute bitmask flags (graphics/ga_mesh.h is not among the
sources; the spec records only that `vertex_format` is a bitmask of the
optional attributes, so the flags are modelled as distinct bits above
the initial value 1 the code starts from). -/
def k_vertex_attribute_uv : Nat := 2

/-- Normal-attribute bit (see `k_vertex_attribute_uv`). -/
def k_vertex_attribute_normal : Nat := 4

/-- Color-attribute bit (see `k_vertex_attribute_uv`). -/
def k_vertex_attribute_color : Nat := 8

/-- Bone-weight-attribute bit (see `k_vertex_attribute_uv`). -/
def k_vertex_attribute_weight : Nat := 16

/-- GL_TRIANGLES (0x0004). -/
def GL_TRIANGLES : Nat := 4

/-- An imported face: mIndices with mNumIndices = length. -/
structure aiFace where
  mIndices : List Nat
deriving DecidableEq, Repr

/-- An imported 3-vector. -/
structure aiVector3 where
  x : Int
  y : Int
  z : Int
deriving DecidableEq, Repr

/-- The slice of an aiMaterial the code reads: an optional diffuse
texture path and a diffuse colour. -/
structure aiMaterialModel where
  diffuse_texture : Option String
  diffuse_color : Int × Int × Int
deriving DecidableEq, Repr

/-- The slice of an aiMesh the code reads.  An optional channel being
`some` is HasTextureCoords(0) / HasNormals; colours and bones only feed
the format bitmask in this code. -/
structure aiMeshModel where
  mName : String
  mVertices : List aiVector3
  mTextureCoords0 : Option (List (Int × Int))
  mNormals : Option (List aiVector3)
  mHasVertexColors0 : Bool
  mHasBones : Bool
  mFaces : List aiFace
  mMaterialIndex : Nat
deriving DecidableEq, Repr

/-- The slice of an aiScene the mesh builder reads. -/
structure aiSceneMaterials where
  mMaterials : List aiMaterialModel
deriving DecidableEq, Repr

/-- A packed vertex (zero-initialised, as `ga_vertex vertex = {}`). -/
structure ga_vertex where
  position : ga_vec3f := ⟨0, 0, 0⟩
  uv : Int × Int := (0, 0)
  normal : ga_vec3f := ⟨0, 0, 0⟩
deriving DecidableEq, Repr

/-- The two material variants the builder constructs. -/
inductive ga_material where
  | lit_texture (path : String) : ga_material
  | lit (diffuse : Int × Int × Int) : ga_material
deriving DecidableEq, Repr

/-- A mesh: the fields of ga_mesh the three source functions touch. -/
structure ga_mesh where
  vertex_format : Nat
  name : String
  vertex_array : List ga_vertex
  index_array : List Nat
  material : Option ga_material
  index_count : Nat
  vao : Nat
deriving DecidableEq, Repr

/-- ga_mesh::ga_mesh: zero index count, null material, vao 0. -/
def ga_mesh.init : ga_mesh :=
  { vertex_format := 0, name := "", vertex_array := [], index_array := [],
    material := none, index_count := 0, vao := 0 }

/-- The vertex-format bitmask computed at the top of create_from_aiMesh:
starts at 1, then ORs a bit per optional channel the source provides. -/
def vertex_format_of (mesh : aiMeshModel) : Nat :=
  let f := 1
  let f := if mesh.mTextureCoords0.isSome then f ||| k_vertex_attribute_uv else f
  let f := if mesh.mNormals.isSome then f ||| k_vertex_attribute_normal else f
  let f := if mesh.mHasVertexColors0 then f ||| k_vertex_attribute_color else f
  if mesh.mHasBones then f ||| k_vertex_attribute_weight else f

/-- The vertex-loading loop: position always; uv and normal when the
format bit is set (assimp guarantees a present channel spans all
vertices, hence the defaulted reads). -/
def load_vertices (fmt : Nat) (mesh : aiMeshModel) : List ga_vertex :=
  (List.range mesh.mVertices.length).map fun i =>
    let v := mesh.mVertices.getD i ⟨0, 0, 0⟩
    let vert : ga_vertex := { position := ⟨v.x, v.y, v.z⟩ }
    let vert :=
      if fmt &&& k_vertex_attribute_uv ≠ 0 then
        { vert with uv := (mesh.mTextureCoords0.getD []).getD i (0, 0) }
      else vert
    if fmt &&& k_vertex_attribute_normal ≠ 0 then
      let n := (mesh.mNormals.getD []).getD i ⟨0, 0, 0⟩
      { vert with normal := ⟨n.x, n.y, n.z⟩ }
    else vert

/-- The stderr line printed for a face with more than 3 vertices. -/
def face_warning (num_indices : Nat) : String :=
  "Face with more than 3 verts: mNumIndices=" ++ toString num_indices

/-- The index-loading loop of create_from_aiMesh: for every face push
mIndices[0], mIndices[1] and mIndices[2] unconditionally, then warn if
the face has more than 3 indices.  The three reads are C array accesses,
so a face with fewer than 3 indices makes the whole load undefined
(`none`). -/
def load_indices : List aiFace → Option (List Nat × List String)
  | [] => some ([], [])
  | f :: rest =>
    match f.mIndices[0]?, f.mIndices[1]?, f.mIndices[2]? with
    | some i0, some i1, some i2 =>
      match load_indices rest with
      | some (idx, ws) =>
        some (i0 :: i1 :: i2 :: idx,
          (if 3 < f.mIndices.length then [face_warning f.mIndices.length] else []) ++ ws)
      | none => none
    | _, _, _ => none

/-- The material-resolution branch at the bottom of create_from_aiMesh:
a textured-lit material when a diffuse texture is present, else an
untextured-lit material with the diffuse colour. -/
def resolve_material (am : aiMaterialModel) : ga_material :=
  match am.diffuse_texture with
  | some path => .lit_texture path
  | none => .lit am.diffuse_color

/-- ga_mesh::create_from_aiMesh: set the format bitmask and name, append
the vertices and the per-face index triples, resolve the material.
Returns the updated mesh and the warnings printed; `none` when an index
read or the scene's material lookup is out of bounds. -/
def ga_mesh.create_from_aiMesh (m : ga_mesh) (mesh : aiMeshModel)
    (scene : aiSceneMaterials) : Option (ga_mesh × List String) :=
  let fmt := vertex_format_of mesh
  let verts := load_vertices fmt mesh
  match load_indices mesh.mFaces with
  | none => none
  | some (idx, warns) =>
    match scene.mMaterials[mesh.mMaterialIndex]? with
    | none => none
    | some ai_material =>
      some ({ m with
                vertex_format := fmt,
                name := mesh.mName,
                vertex_array := m.vertex_array ++ verts,
                index_array := m.index_array ++ idx,
                material := some (resolve_material ai_material) },
            warns)

/-- ga_mesh::make_buffers: the GL buffer uploads are external effects;
on the mesh itself it records the generated vertex-array handle and sets
`_index_count = _index_array.size()`. -/
def ga_mesh.make_buffers (m : ga_mesh) (vao_handle : Nat) : ga_mesh :=
  { m with vao := vao_handle, index_count := m.index_array.length }

/-- A 4x4 matrix (math/ga_mat4f.h, external collaborator), stored as
rows of columns like the C `data[r][c]`. -/
structure ga_mat4f where
  data : List (List Int)
deriving DecidableEq, Repr

/-- Row r, column c, defaulting to 0 outside the stored data. -/
def ga_mat4f.entry (m : ga_mat4f) (r c : Nat) : Int :=
  (m.data.getD r []).getD c 0

/-- The identity matrix. -/
def ga_mat4f.identity : ga_mat4f :=
  ⟨(List.range 4).map fun r => (List.range 4).map fun c => if r = c then 1 else 0⟩

/-- ga_mat4f::transpose. -/
def ga_mat4f.transpose (m : ga_mat4f) : ga_mat4f :=
  ⟨(List.range 4).map fun r => (List.range 4).map fun c => m.entry c r⟩

/-- Modelled from the spec: matrix composition used by the node update
pass ("world transform = local transform × parent world transform");
the math library is an external collaborator. -/
def ga_mat4f.mul (m p : ga_mat4f) : ga_mat4f :=
  ⟨(List.range 4).map fun r => (List.range 4).map fun c =>
    ((List.range 4).map fun k => m.entry r k * p.entry k c).sum⟩

/-- ai_mat4_to_ga_mat4: copy the 4x4 of entries of an imported matrix. -/
def ai_mat4_to_ga_mat4 (in_mat : List (List Int)) : ga_mat4f :=
  ⟨(List.range 4).map fun r => (List.range 4).map fun c =>
    ((in_mat.getD r []).getD c 0)⟩

/-- A draw-call descriptor (graphics/ga_drawcall.h is external; the spec
lists buffer handle, index count, primitive mode, material, plus the
world transform the draw pass fills in). -/
structure ga_static_drawcall where
  vao : Nat
  index_count : Nat
  draw_mode : Nat
  material : Option ga_material
  transform : ga_mat4f
deriving DecidableEq, Repr

/-- A zeroed descriptor for the draw pass to fill. -/
def ga_static_drawcall.empty : ga_static_drawcall :=
  { vao := 0, index_count := 0, draw_mode := 0, material := none, transform := ⟨[]⟩ }

/-- ga_mesh::assemble_drawcall: copy vao, index count, GL_TRIANGLES and
the material pointer into the caller's descriptor. -/
def ga_mesh.assemble_drawcall (m : ga_mesh) (draw : ga_static_drawcall) :
    ga_static_drawcall :=
  { draw with vao := m.vao, index_count := m.index_count,
              draw_mode := GL_TRIANGLES, material := m.material }

/-- An imported scene node: mTransformation, mName, mMeshes (indices
into the scene's mesh list), mChildren. -/
inductive aiNodeModel where
  | mk : List (List Int) → String → List Nat → List aiNodeModel → aiNodeModel

/-- The imported node's transformation matrix. -/
def aiNodeModel.mTransformation : aiNodeModel → List (List Int)
  | .mk t _ _ _ => t

/-- The imported node's name. -/
def aiNodeModel.mName : aiNodeModel → String
  | .mk _ n _ _ => n

/-- The imported node's mesh indices. -/
def aiNodeModel.mMeshes : aiNodeModel → List Nat
  | .mk _ _ ms _ => ms

/-- The imported node's children. -/
def aiNodeModel.mChildren : aiNodeModel → List aiNodeModel
  | .mk _ _ _ cs => cs

/-- The slice of an aiScene the model component reads. -/
structure aiSceneModel where
  mMeshes : List aiMeshModel
  mMaterials : List aiMaterialModel
  mRootNode : aiNodeModel

/-- A runtime scene-graph node (graphics/ga_node.h/.cpp are not among
the sources): name, local transform, per-frame world transform, mesh
references, owned children. -/
inductive ga_node where
  | mk : String → ga_mat4f → ga_mat4f → List ga_mesh → List ga_node → ga_node

/-- The node's name. -/
def ga_node.name : ga_node → String
  | .mk n _ _ _ _ => n

/-- The node's local transform (`_transform`, set at import). -/
def ga_node.transform : ga_node → ga_mat4f
  | .mk _ t _ _ _ => t

/-- The node's current world transform. -/
def ga_node.world : ga_node → ga_mat4f
  | .mk _ _ w _ _ => w

/-- The node's mesh references. -/
def ga_node.meshes : ga_node → List ga_mesh
  | .mk _ _ _ ms _ => ms

/-- The node's owned children. -/
def ga_node.children : ga_node → List ga_node
  | .mk _ _ _ _ cs => cs

/-- Modelled from the spec: a freshly constructed ga_node is empty — no
name, identity transforms, no meshes, no children ("valid-but-empty
state, no root content"). -/
def ga_node.empty : ga_node :=
  .mk "" ga_mat4f.identity ga_mat4f.identity [] []

/-- Modelled from the spec: the ga_node update pass — "compute this
node's world transform = local transform × parent world transform;
recurse into children with this node's world transform as their parent
input"; only the world transform is mutated. -/
def ga_node.update : ga_node → ga_mat4f → ga_node
  | .mk nm t _ ms cs, parent_world =>
    let w := t.mul parent_world
    .mk nm t w ms (cs.attach.map fun c => ga_node.update c.1 w)
termination_by n _ => sizeOf n
decreasing_by
  have h := List.sizeOf_lt_of_mem c.2
  simp_wf
  omega

/-- Modelled from the spec: the ga_node draw pass — "for each mesh
referenced by this node, assemble a draw-call descriptor updated with
this node's current world transform and submit it; recurse into
children". -/
def ga_node.draw_recursive : ga_node → List ga_static_drawcall
  | .mk _ _ w ms cs =>
    (ms.map fun m =>
      m.assemble_drawcall { ga_static_drawcall.empty with transform := w })
      ++ (cs.attach.map fun c => ga_node.draw_recursive c.1).flatten
termination_by n => sizeOf n
decreasing_by
  have h := List.sizeOf_lt_of_mem c.2
  simp_wf
  omega

/-- The model component: owning entity handle, the built meshes, the
root node, and the diagnostics printed during construction. -/
structure ga_model_component where
  ent : Nat
  meshes : List ga_mesh
  root : ga_node
  diags : List String

/-- The mesh-building loop of the constructor: one ga_mesh per imported
mesh, created from the import data then realised; vertex-array handles
are handed out sequentially (GL generates fresh ids). -/
def build_meshes (mats : aiSceneMaterials) :
    List aiMeshModel → Nat → Option (List ga_mesh × List String)
  | [], _ => some ([], [])
  | am :: rest, vao =>
    match ga_mesh.init.create_from_aiMesh am mats with
    | some (m, ws) =>
      match build_meshes mats rest (vao + 1) with
      | some (ms, ws2) => some (m.make_buffers vao :: ms, ws ++ ws2)
      | none => none
    | none => none

/-- ga_model_component::process_node_recursive: convert the node's
transformation (with the transpose correction), copy its name, attach
the already-built meshes it indexes (`_meshes[ai_node->mMeshes[i]]`,
defaulted here as vector indexing is unchecked), then recurse into each
child with a fresh node. -/
def ga_model_component.process_node_recursive (meshes : List ga_mesh) :
    aiNodeModel → ga_node → ga_node
  | .mk t nm ms cs, node =>
    .mk nm ((ai_mat4_to_ga_mat4 t).transpose) node.world
      (node.meshes ++ ms.map fun i => meshes.getD i ga_mesh.init)
      (node.children ++ cs.attach.map fun c =>
        ga_model_component.process_node_recursive meshes c.1 ga_node.empty)
termination_by n _ => sizeOf n
decreasing_by
  have h := List.sizeOf_lt_of_mem c.2
  simp_wf
  omega

/-- ga_model_component::ga_model_component: `scene` is the result of the
external importer's ReadFile (`none` = import failed).  On failure print
a diagnostic and leave the component empty; on success print the mesh
count, build every mesh, and process the node tree into `_root`. -/
def ga_model_component.construct (ent : Nat) (scene : Option aiSceneModel) :
    Option ga_model_component :=
  match scene with
  | none =>
    some { ent := ent, meshes := [], root := ga_node.empty,
           diags := ["error: couldn't load obj"] }
  | some sc =>
    match build_meshes ⟨sc.mMaterials⟩ sc.mMeshes 1 with
    | some (ms, ws) =>
      some { ent := ent, meshes := ms,
             root := ga_model_component.process_node_recursive ms sc.mRootNode ga_node.empty,
             diags := ("number of meshes: " ++ toString sc.mMeshes.length) :: ws }
    | none => none

/-- ga_model_component::update: update the world matrices from the
owning entity's transform, then draw the scene graph, returning the
submitted draw calls. -/
def ga_model_component.update (c : ga_model_component) (entity_transform : ga_mat4f) :
    ga_model_component × List ga_static_drawcall :=
  let root2 := c.root.update entity_transform
  ({ c with root := root2 }, root2.draw_recursive)

/-- The component a failed model import leaves behind. -/
def empty_model_component (ent : Nat) : ga_model_component :=
  { ent := ent, meshes := [], root := ga_node.empty,
    diags := ["error: couldn't load obj"] }

/-! Concrete sample inputs used by the witness theorems. -/

/-- A well-formed script: loads, runs cleanly, defines `update`. -/
def sample_script : LuaScript :=
  { load_ok := true, load_error_msg := "", run_error := false,
    globals := fun n => if n = "update" then .vfun 7 else .vnil }

/-- A script whose top-level chunk raises but still defines `update`. -/
def sample_script_err : LuaScript :=
  { load_ok := true, load_error_msg := "", run_error := true,
    globals := fun n => if n = "update" then .vfun 9 else .vnil }

/-- A script that loads and runs but defines no `update`. -/
def sample_script_noupd : LuaScript :=
  { load_ok := true, load_error_msg := "", run_error := false,
    globals := fun _ => .vnil }

/-- A loaded sample component. -/
def sample_component : ga_lua_component :=
  ga_lua_component.construct 3 sample_script "data/scripts/move.lua"

/-- An entity heap with one entity at every address. -/
def sample_ent_heap : Nat → ga_entity := fun _ => { position := ⟨1, 2, 3⟩ }

/-- A frame-params heap. -/
def sample_fp_heap : Nat → ga_frame_params :=
  fun _ => { button_mask := 0, delta_time := 16 }

/-- An imported mesh whose single face is a quad (4 indices). -/
def sample_quad_mesh : aiMeshModel :=
  { mName := "quad",
    mVertices := [⟨0, 0, 0⟩, ⟨1, 0, 0⟩, ⟨1, 1, 0⟩, ⟨0, 1, 0⟩],
    mTextureCoords0 := none, mNormals := none,
    mHasVertexColors0 := false, mHasBones := false,
    mFaces := [⟨[0, 1, 2, 3]⟩], mMaterialIndex := 0 }

/-- An imported mesh of two triangles. -/
def sample_tri_mesh : aiMeshModel :=
  { mName := "tris",
    mVertices := [⟨0, 0, 0⟩, ⟨1, 0, 0⟩, ⟨1, 1, 0⟩, ⟨0, 1, 0⟩],
    mTextureCoords0 := none, mNormals := none,
    mHasVertexColors0 := false, mHasBones := false,
    mFaces := [⟨[0, 1, 2]⟩, ⟨[0, 2, 3]⟩], mMaterialIndex := 0 }

/-- A scene with one untextured material. -/
def sample_materials : aiSceneMaterials :=
  ⟨[{ diffuse_texture := none, diffuse_color := (1, 0, 0) }]⟩

/-- The mesh create_from_aiMesh builds from `sample_quad_mesh`. -/
def sample_quad_built : ga_mesh :=
  { vertex_format := 1, name := "quad",
    vertex_array := [{ position := ⟨0, 0, 0⟩ }, { position := ⟨1, 0, 0⟩ },
                     { position := ⟨1, 1, 0⟩ }, { position := ⟨0, 1, 0⟩ }],
    index_array := [0, 1, 2], material := some (.lit (1, 0, 0)),
    index_count := 0, vao := 0 }

/-- The mesh create_from_aiMesh builds from `sample_tri_mesh`. -/
def sample_tri_built : ga_mesh :=
  { vertex_format := 1, name := "tris",
    vertex_array := [{ position := ⟨0, 0, 0⟩ }, { position := ⟨1, 0, 0⟩ },
                     { position := ⟨1, 1, 0⟩ }, { position := ⟨0, 1, 0⟩ }],
    index_array := [0, 1, 2, 0, 2, 3], material := some (.lit (1, 0, 0)),
    index_count := 0, vao := 0 }

/-! Theorems settling the claims. -/

/-- Claim C1: a script whose top-level execution does not leave a global
callable named `update` produces a disabled component (interpreter state
null), and every per-frame invocation of that component is a no-op —
no Lua call, no diagnostic, no assert. -/
theorem C1_missing_update_disables_component
    (ent : Nat) (script : LuaScript) (path : String)
    (h : lua_isfunction (script.globals "update") = false) :
    (ga_lua_component.construct ent script path).lua = none ∧
    ∀ self_addr params_addr call_error,
      (ga_lua_component.construct ent script path).update self_addr params_addr call_error
        = { calls := [], diags := [], asserted := false } := by
  unfold ga_lua_component.construct
  cases hl : script.load_ok <;>
    simp [h, ga_lua_component.update]

/-- Witness for C1 at a concrete script defining no `update`. -/
theorem C1_witness :
    (ga_lua_component.construct 0 sample_script_noupd "s.lua").lua = none ∧
    (ga_lua_component.construct 0 sample_script_noupd "s.lua").update 5 6 (some "boom")
      = { calls := [], diags := [], asserted := false } := by
  have h := C1_missing_update_disables_component 0 sample_script_noupd "s.lua" rfl
  exact ⟨h.1, h.2 5 6 (some "boom")⟩

/-- Claim C6: on a loaded component, each per-frame invocation looks up
`update` afresh in the component's current global table and issues
exactly one Lua call, whose two arguments are the component pointer and
the frame-params pointer of that frame.  The statement is universal in
the state's global table, so the call target tracks whatever `update`
currently denotes rather than a cached reference. -/
theorem C6_fresh_lookup_single_call
    (c : ga_lua_component) (st : LuaState) (h : c.lua = some st)
    (self_addr params_addr : Nat) (call_error : Option String) :
    (c.update self_addr params_addr call_error).calls
      = [{ fn := st.globals "update",
           args := [.vlightuserdata self_addr, .vlightuserdata params_addr] }] := by
  unfold ga_lua_component.update
  rw [h]
  cases call_error <;> rfl

/-- Witness for C6 on a concrete loaded component. -/
theorem C6_witness :
    (sample_component.update 11 22 none).calls
      = [{ fn := .vfun 7,
           args := [.vlightuserdata 11, .vlightuserdata 22] }] := by
  have h := C6_fresh_lookup_single_call sample_component
      ⟨register_natives sample_script.globals⟩ rfl 11 22 none
  rw [h]
  rfl

/-- Claim C9: the lua_pcall status of the top-level chunk is discarded:
a script that loads, raises at top level, yet leaves a callable global
`update`, still yields a loaded component with no diagnostics; and the
component is disabled exactly when the file fails to load or `update`
is absent or not callable. -/
theorem C9_load_pcall_status_ignored :
    (∀ ent script path, script.load_ok = true → script.run_error = true →
      lua_isfunction (script.globals "update") = true →
      (ga_lua_component.construct ent script path).lua
          = some ⟨register_natives script.globals⟩ ∧
      (ga_lua_component.construct ent script path).diags = []) ∧
    (∀ ent script path,
      (ga_lua_component.construct ent script path).lua = none ↔
        (script.load_ok = false ∨ lua_isfunction (script.globals "update") = false)) := by
  constructor
  · intro ent script path hload _ hupd
    simp [ga_lua_component.construct, hload, hupd]
  · intro ent script path
    unfold ga_lua_component.construct
    cases h : script.load_ok <;>
      cases h2 : lua_isfunction (script.globals "update") <;> simp [h, h2]

/-- Witness for C9 on a script that raises at top level but defines
`update`. -/
theorem C9_witness :
    (ga_lua_component.construct 0 sample_script_err "s.lua").lua
        = some ⟨register_natives sample_script_err.globals⟩ ∧
    (ga_lua_component.construct 0 sample_script_err "s.lua").diags = [] :=
  C9_load_pcall_status_ignored.1 0 sample_script_err "s.lua" rfl rfl rfl

/-- Claim C2: a call to entity_translate with exactly 4 arguments
(entity handle plus 3 numbers) adds exactly (dx, dy, dz) to the target
entity's position, leaves every other entity untouched and prints
nothing; with any other argument count the whole entity heap is
unchanged and the diagnostic is printed. -/
theorem C2_entity_translate_contract :
    (∀ (ent_heap : Nat → ga_entity) (addr : Nat) (dx dy dz : Int),
      ((ga_lua_component.lua_entity_translate ent_heap
          [.vlightuserdata addr, .vnum dx, .vnum dy, .vnum dz]).1 addr).position
        = ⟨(ent_heap addr).position.x + dx, (ent_heap addr).position.y + dy,
           (ent_heap addr).position.z + dz⟩ ∧
      (∀ a, a ≠ addr →
        (ga_lua_component.lua_entity_translate ent_heap
          [.vlightuserdata addr, .vnum dx, .vnum dy, .vnum dz]).1 a = ent_heap a) ∧
      (ga_lua_component.lua_entity_translate ent_heap
          [.vlightuserdata addr, .vnum dx, .vnum dy, .vnum dz]).2.diags = []) ∧
    (∀ (ent_heap : Nat → ga_entity) (stack : List LuaVal), stack.length ≠ 4 →
      (ga_lua_component.lua_entity_translate ent_heap stack).1 = ent_heap ∧
      (ga_lua_component.lua_entity_translate ent_heap stack).2.diags
        = ["Function entity_translate expected 4 arguments but got "
           ++ toString stack.length ++ "."]) := by
  constructor
  · intro ent_heap addr dx dy dz
    refine ⟨?_, ?_, ?_⟩
    · simp [ga_lua_component.lua_entity_translate, lua_touserdata, lua_tonumber,
            stack_get, heap_set, ga_entity.translate]
    · intro a ha
      simp [ga_lua_component.lua_entity_translate, lua_touserdata, stack_get,
            heap_set, ha]
    · simp [ga_lua_component.lua_entity_translate]
  · intro ent_heap stack h
    constructor <;>
      simp [ga_lua_component.lua_entity_translate, h]

/-- Witness for C2: a 4-argument call moves the entity by the delta; a
1-argument call leaves the heap alone and prints the diagnostic. -/
theorem C2_witness :
    ((ga_lua_component.lua_entity_translate sample_ent_heap
        [.vlightuserdata 0, .vnum 10, .vnum 20, .vnum 30]).1 0).position = ⟨11, 22, 33⟩ ∧
    (ga_lua_component.lua_entity_translate sample_ent_heap [.vnum 5]).1 9
        = { position := ⟨1, 2, 3⟩ } ∧
    (ga_lua_component.lua_entity_translate sample_ent_heap [.vnum 5]).2.diags
      = ["Function entity_translate expected 4 arguments but got 1."] := by
  refine ⟨(C2_entity_translate_contract.1 sample_ent_heap 0 10 20 30).1, ?_, ?_⟩
  · rw [(C2_entity_translate_contract.2 sample_ent_heap [.vnum 5] (by decide)).1]
    rfl
  · rw [(C2_entity_translate_contract.2 sample_ent_heap [.vnum 5] (by decide)).2]
    rfl

/-- A single bit of a mask is nonzero under bitwise-and exactly when the
mask has that bit set. -/
theorem and_two_pow_ne_zero_iff (m i : Nat) :
    (m &&& 2 ^ i ≠ 0) ↔ m.testBit i = true := by
  rw [Nat.and_two_pow]
  cases h : m.testBit i <;> simp [h]

/-- Claim C7: with exactly one argument, frame_params_get_input_left
returns true to the script iff the frame's button mask has the "left"
bit (k_button_j = bit 0 as modelled), and frame_params_get_input_right
returns true iff the "right" bit (k_button_l = bit 1) is set. -/
theorem C7_input_queries_test_bits
    (fp_heap : Nat → ga_frame_params) (addr : Nat) :
    (lua_call_results
        (ga_lua_component.lua_frame_params_get_input_left fp_heap
          [.vlightuserdata addr]).stack
        (ga_lua_component.lua_frame_params_get_input_left fp_heap
          [.vlightuserdata addr]).nret
      = some [.vbool true]
      ↔ (fp_heap addr).button_mask.testBit 0 = true) ∧
    (lua_call_results
        (ga_lua_component.lua_frame_params_get_input_right fp_heap
          [.vlightuserdata addr]).stack
        (ga_lua_component.lua_frame_params_get_input_right fp_heap
          [.vlightuserdata addr]).nret
      = some [.vbool true]
      ↔ (fp_heap addr).button_mask.testBit 1 = true) := by
  constructor
  · have hb := and_two_pow_ne_zero_iff (fp_heap addr).button_mask 0
    norm_num at hb
    simp only [ga_lua_component.lua_frame_params_get_input_left, lua_call_results,
          lua_pushboolean, lua_touserdata, stack_get, k_button_j]
    simp [bne_iff_ne, hb]
  · have hb := and_two_pow_ne_zero_iff (fp_heap addr).button_mask 1
    norm_num at hb
    simp only [ga_lua_component.lua_frame_params_get_input_right, lua_call_results,
          lua_pushboolean, lua_touserdata, stack_get, k_button_l]
    simp [bne_iff_ne, hb]

/-- A C function that declares one result returns the top value of its
final stack; when it pushed nothing, that is the last argument the
caller supplied. -/
theorem lua_call_results_last (args : List LuaVal) (v : LuaVal) :
    lua_call_results (args ++ [v]) 1 = some [v] := by
  unfold lua_call_results
  rw [if_pos (by simp)]
  have hlen : (args ++ [v]).length - 1 = args.length := by simp
  rw [hlen, List.drop_left]

/-- Counterexample to claim C5 as stated: a mismatched call to
frame_params_get_input_left does not hand the script a benign default —
it pushes nothing yet still declares one result, so the script receives
the last argument it passed, a value that varies with the arguments. -/
theorem C5_counterexample :
    lua_call_results
        (ga_lua_component.lua_frame_params_get_input_left sample_fp_heap
          [.vnum 5, .vnum 7]).stack
        (ga_lua_component.lua_frame_params_get_input_left sample_fp_heap
          [.vnum 5, .vnum 7]).nret = some [.vnum 7] ∧
    lua_call_results
        (ga_lua_component.lua_frame_params_get_input_left sample_fp_heap
          [.vnum 5, .vnum 8]).stack
        (ga_lua_component.lua_frame_params_get_input_left sample_fp_heap
          [.vnum 5, .vnum 8]).nret = some [.vnum 8] ∧
    ¬ (LuaVal.vnum 7 = LuaVal.vnum 8) := by
  decide

/-- Claim C5 (amended): each native callable invoked with the wrong
argument count emits its diagnostic and leaves its surroundings alone —
the stack is untouched and entity_translate mutates no entity — so the
script keeps running; entity_translate returns no value, but the three
single-result callables push nothing while still declaring one result,
so the script receives the top of the argument stack (its own last
argument) rather than a fixed benign default. -/
theorem C5_amended_mismatch_behaviour :
    (∀ (fp_heap : Nat → ga_frame_params) (stack : List LuaVal), stack.length ≠ 1 →
      (ga_lua_component.lua_frame_params_get_input_left fp_heap stack).stack = stack ∧
      (ga_lua_component.lua_frame_params_get_input_left fp_heap stack).nret = 1 ∧
      (ga_lua_component.lua_frame_params_get_input_left fp_heap stack).diags
        = ["Function frame_params_get_input_left expected 1 argument but got "
           ++ toString stack.length ++ "."]) ∧
    (∀ (fp_heap : Nat → ga_frame_params) (stack : List LuaVal), stack.length ≠ 1 →
      (ga_lua_component.lua_frame_params_get_input_right fp_heap stack).stack = stack ∧
      (ga_lua_component.lua_frame_params_get_input_right fp_heap stack).nret = 1 ∧
      (ga_lua_component.lua_frame_params_get_input_right fp_heap stack).diags
        = ["Function frame_params_get_input_right expected 1 argument but got "
           ++ toString stack.length ++ "."]) ∧
    (∀ (comp_heap : Nat → ga_lua_component) (stack : List LuaVal), stack.length ≠ 1 →
      (ga_lua_component.lua_component_get_entity comp_heap stack).stack = stack ∧
      (ga_lua_component.lua_component_get_entity comp_heap stack).nret = 1 ∧
      (ga_lua_component.lua_component_get_entity comp_heap stack).diags
        = ["Function component_get_entity expected 1 argument but got "
           ++ toString stack.length ++ "."]) ∧
    (∀ (ent_heap : Nat → ga_entity) (stack : List LuaVal), stack.length ≠ 4 →
      (ga_lua_component.lua_entity_translate ent_heap stack).1 = ent_heap ∧
      (ga_lua_component.lua_entity_translate ent_heap stack).2.nret = 0 ∧
      lua_call_results (ga_lua_component.lua_entity_translate ent_heap stack).2.stack 0
        = some [] ∧
      (ga_lua_component.lua_entity_translate ent_heap stack).2.diags
        = ["Function entity_translate expected 4 arguments but got "
           ++ toString stack.length ++ "."]) ∧
    (∀ (args : List LuaVal) (v : LuaVal),
      lua_call_results (args ++ [v]) 1 = some [v]) := by
  refine ⟨?_, ?_, ?_, ?_, lua_call_results_last⟩
  · intro fp_heap stack h
    refine ⟨?_, ?_, ?_⟩ <;>
      simp [ga_lua_component.lua_frame_params_get_input_left, h]
  · intro fp_heap stack h
    refine ⟨?_, ?_, ?_⟩ <;>
      simp [ga_lua_component.lua_frame_params_get_input_right, h]
  · intro comp_heap stack h
    refine ⟨?_, ?_, ?_⟩ <;>
      simp [ga_lua_component.lua_component_get_entity, h]
  · intro ent_heap stack h
    refine ⟨?_, ?_, ?_, ?_⟩ <;>
      simp [ga_lua_component.lua_entity_translate, lua_call_results, h]

/-- Witness for the amended C5 at concrete mismatched calls. -/
theorem C5_witness :
    (ga_lua_component.lua_frame_params_get_input_right sample_fp_heap []).diags
      = ["Function frame_params_get_input_right expected 1 argument but got 0."] ∧
    (ga_lua_component.lua_component_get_entity (fun _ => sample_component)
        [.vnum 1, .vnum 2]).stack = [.vnum 1, .vnum 2] ∧
    (ga_lua_component.lua_entity_translate sample_ent_heap []).1 4
      = { position := ⟨1, 2, 3⟩ } ∧
    lua_call_results [LuaVal.vnum 1, LuaVal.vnum 2] 1 = some [.vnum 2] := by
  refine ⟨?_, ?_, ?_, ?_⟩
  · rw [(C5_amended_mismatch_behaviour.2.1 sample_fp_heap [] (by decide)).2.2]
    rfl
  · exact (C5_amended_mismatch_behaviour.2.2.1 (fun _ => sample_component)
      [.vnum 1, .vnum 2] (by decide)).1
  · rw [(C5_amended_mismatch_behaviour.2.2.2.1 sample_ent_heap [] (by decide)).1]
    rfl
  · exact C5_amended_mismatch_behaviour.2.2.2.2 [LuaVal.vnum 1] (LuaVal.vnum 2)

/-- A list whose first three positional reads succeed starts with
exactly those three elements. -/
theorem take3_of_getElem (l : List Nat) {a b c : Nat} (h0 : l[0]? = some a)
    (h1 : l[1]? = some b) (h2 : l[2]? = some c) : l.take 3 = [a, b, c] := by
  match l with
  | [] => simp at h0
  | [x] => simp at h1
  | [x, y] => simp at h2
  | x :: y :: z :: rest =>
    simp only [List.getElem?_cons_zero, List.getElem?_cons_succ,
      Option.some.injEq] at h0 h1 h2
    subst h0 h1 h2
    rfl

/-- What a successful index load produces: the concatenation of every
face's first three indices, one warning per face with more than three
indices, and three indices per face in total. -/
theorem load_indices_eq : ∀ (faces : List aiFace) (idx : List Nat) (ws : List String),
    load_indices faces = some (idx, ws) →
    idx = (faces.map fun f => f.mIndices.take 3).flatten ∧
    ws = (faces.filter fun f => 3 < f.mIndices.length).map
          (fun f => face_warning f.mIndices.length) ∧
    idx.length = 3 * faces.length := by
  intro faces
  induction faces with
  | nil =>
    intro idx ws h
    simp only [load_indices, Option.some.injEq, Prod.mk.injEq] at h
    obtain ⟨rfl, rfl⟩ := h
    simp
  | cons f rest ih =>
    intro idx ws h
    unfold load_indices at h
    cases h0 : f.mIndices[0]? with
    | none => rw [h0] at h; simp at h
    | some i0 =>
      cases h1 : f.mIndices[1]? with
      | none => rw [h0, h1] at h; simp at h
      | some i1 =>
        cases h2 : f.mIndices[2]? with
        | none => rw [h0, h1, h2] at h; simp at h
        | some i2 =>
          rw [h0, h1, h2] at h
          cases hr : load_indices rest with
          | none => rw [hr] at h; simp at h
          | some p =>
            obtain ⟨idx0, ws0⟩ := p
            rw [hr] at h
            simp only [Option.some.injEq, Prod.mk.injEq] at h
            obtain ⟨rfl, rfl⟩ := h
            obtain ⟨e1, e2, e3⟩ := ih idx0 ws0 hr
            have htake : f.mIndices.take 3 = [i0, i1, i2] :=
              take3_of_getElem f.mIndices h0 h1 h2
            refine ⟨?_, ?_, ?_⟩
            · simp [htake, e1]
            · by_cases hgt : 3 < f.mIndices.length <;> simp [hgt, e2]
            · simp [e3]
              ring

/-- Claim C3: whenever create_from_aiMesh completes on a fresh mesh,
after make_buffers the index count is divisible by 3, the index array is
exactly every source face's first three indices in face order, and the
printed warnings are exactly one per face with more than 3 indices. -/
theorem C3_triangulation_invariant
    (mesh : aiMeshModel) (scene : aiSceneMaterials) (m : ga_mesh) (warns : List String)
    (h : ga_mesh.init.create_from_aiMesh mesh scene = some (m, warns)) (vao : Nat) :
    (m.make_buffers vao).index_count % 3 = 0 ∧
    m.index_array = (mesh.mFaces.map fun f => f.mIndices.take 3).flatten ∧
    warns = (mesh.mFaces.filter fun f => 3 < f.mIndices.length).map
              (fun f => face_warning f.mIndices.length) := by
  unfold ga_mesh.create_from_aiMesh at h
  cases hl : load_indices mesh.mFaces with
  | none => rw [hl] at h; simp at h
  | some p =>
    obtain ⟨idx, ws⟩ := p
    rw [hl] at h
    cases hm : scene.mMaterials[mesh.mMaterialIndex]? with
    | none => rw [hm] at h; simp at h
    | some am =>
      rw [hm] at h
      simp only [Option.some.injEq, Prod.mk.injEq] at h
      obtain ⟨rfl, rfl⟩ := h
      obtain ⟨e1, e2, e3⟩ := load_indices_eq mesh.mFaces idx ws hl
      refine ⟨?_, ?_, e2⟩
      · simp [ga_mesh.make_buffers, ga_mesh.init, e3]
      · simp [ga_mesh.init, e1]

/-- Witness for C3 at a mesh with one quad face. -/
theorem C3_witness :
    (sample_quad_built.make_buffers 1).index_count % 3 = 0 ∧
    sample_quad_built.index_array
      = (sample_quad_mesh.mFaces.map fun f => f.mIndices.take 3).flatten ∧
    [face_warning 4]
      = (sample_quad_mesh.mFaces.filter fun f => 3 < f.mIndices.length).map
          (fun f => face_warning f.mIndices.length) :=
  C3_triangulation_invariant sample_quad_mesh sample_materials sample_quad_built
    [face_warning 4] (by decide) 1

/-- Claim C4: building a mesh from an all-triangle source and assembling
its draw call yields index_count = 3 × the imported face count, the
mesh's resolved material, and triangle draw mode. -/
theorem C4_roundtrip_drawcall
    (mesh : aiMeshModel) (scene : aiSceneMaterials) (m : ga_mesh) (warns : List String)
    (_hall : ∀ f ∈ mesh.mFaces, f.mIndices.length = 3)
    (h : ga_mesh.init.create_from_aiMesh mesh scene = some (m, warns))
    (vao : Nat) (draw : ga_static_drawcall) :
    ((m.make_buffers vao).assemble_drawcall draw).index_count = 3 * mesh.mFaces.length ∧
    ((m.make_buffers vao).assemble_drawcall draw).material = m.material ∧
    ((m.make_buffers vao).assemble_drawcall draw).draw_mode = GL_TRIANGLES := by
  unfold ga_mesh.create_from_aiMesh at h
  cases hl : load_indices mesh.mFaces with
  | none => rw [hl] at h; simp at h
  | some p =>
    obtain ⟨idx, ws⟩ := p
    rw [hl] at h
    cases hm : scene.mMaterials[mesh.mMaterialIndex]? with
    | none => rw [hm] at h; simp at h
    | some am =>
      rw [hm] at h
      simp only [Option.some.injEq, Prod.mk.injEq] at h
      obtain ⟨rfl, rfl⟩ := h
      obtain ⟨e1, e2, e3⟩ := load_indices_eq mesh.mFaces idx ws hl
      refine ⟨?_, rfl, rfl⟩
      simp [ga_mesh.make_buffers, ga_mesh.assemble_drawcall, ga_mesh.init, e3]

/-- Witness for C4 at a two-triangle mesh. -/
theorem C4_witness :
    ((sample_tri_built.make_buffers 7).assemble_drawcall ga_static_drawcall.empty).index_count
      = 3 * sample_tri_mesh.mFaces.length ∧
    ((sample_tri_built.make_buffers 7).assemble_drawcall ga_static_drawcall.empty).material
      = sample_tri_built.material ∧
    ((sample_tri_built.make_buffers 7).assemble_drawcall ga_static_drawcall.empty).draw_mode
      = GL_TRIANGLES :=
  C4_roundtrip_drawcall sample_tri_mesh sample_materials sample_tri_built []
    (by decide) (by decide) 7 ga_static_drawcall.empty

/-- Claim C10: index loading reads every face's first three index slots
unconditionally, so it is defined exactly when every source face has at
least 3 indices; a face with fewer makes the load undefined. -/
theorem C10_unguarded_index_reads (faces : List aiFace) :
    (load_indices faces).isSome = true ↔ ∀ f ∈ faces, 3 ≤ f.mIndices.length := by
  induction faces with
  | nil => simp [load_indices]
  | cons f rest ih =>
    by_cases h3 : 3 ≤ f.mIndices.length
    · have e0 : f.mIndices[0]? = some (f.mIndices.get ⟨0, by omega⟩) :=
        List.getElem?_eq_getElem (by omega)
      have e1 : f.mIndices[1]? = some (f.mIndices.get ⟨1, by omega⟩) :=
        List.getElem?_eq_getElem (by omega)
      have e2 : f.mIndices[2]? = some (f.mIndices.get ⟨2, by omega⟩) :=
        List.getElem?_eq_getElem (by omega)
      unfold load_indices
      rw [e0, e1, e2]
      cases hr : load_indices rest with
      | none =>
        rw [hr] at ih
        simp only [Option.isSome_none, Bool.false_eq_true, false_iff] at ih
        simp [List.forall_mem_cons, h3, ih]
      | some p =>
        obtain ⟨idx0, ws0⟩ := p
        rw [hr] at ih
        simp only [Option.isSome_some, true_iff] at ih
        simp only [Option.isSome_some, true_iff, List.forall_mem_cons]
        exact ⟨h3, ih⟩
    · have e2 : f.mIndices[2]? = none := List.getElem?_eq_none (by omega)
      unfold load_indices
      rw [e2]
      cases h0 : f.mIndices[0]? <;> cases h1 : f.mIndices[1]? <;>
        · simp only [Option.isSome_none, Bool.false_eq_true, false_iff,
            List.forall_mem_cons, not_and]
          intro ha
          omega

/-- Claim C8: a failed model import leaves the component valid but empty
(no meshes, empty root) with exactly the load diagnostic, and its
per-frame update still runs, submitting no draw calls. -/
theorem C8_failed_import_valid_empty (ent : Nat) (entity_transform : ga_mat4f) :
    ga_model_component.construct ent none = some (empty_model_component ent) ∧
    (empty_model_component ent).diags = ["error: couldn't load obj"] ∧
    (empty_model_component ent).meshes = [] ∧
    (empty_model_component ent).root = ga_node.empty ∧
    ((empty_model_component ent).update entity_transform).2 = [] ∧
    ((empty_model_component ent).update entity_transform).1.meshes = [] := by
  refine ⟨rfl, rfl, rfl, rfl, ?_, rfl⟩
  simp [ga_model_component.update, empty_model_component, ga_node.empty,
        ga_node.update, ga_node.draw_recursive]

end GA
